import Mathlib

/-!
Verification development for the TrancheReady core
(src/lib/rules.js, src/lib/verify-store.js, src/lib/manifest.js).

Dates are modelled as calendar-day numbers (Int): upstream normalization
supplies ISO-8601 calendar dates, on which parseISO is injective and
date-string comparison agrees with day-number comparison;
differenceInCalendarDays is then plain subtraction.
-/

namespace TrancheReady

/-- Model of a loosely typed JavaScript value as it may appear in a
boolean-like flag field (pep_flag, sanctions_flag). -/
inductive JsVal where
  | str (s : String)
  | boolean (b : Bool)
  | num (n : Int)
  | undef
deriving Repr, DecidableEq

/-- Model of JavaScript String(v) conversion. -/
def jsToString : JsVal → String
  | .str s => s
  | .boolean true => "true"
  | .boolean false => "false"
  | .num n => toString n
  | .undef => "undefined"

/-- Model of JavaScript truthiness test (v is falsy). -/
def jsFalsy : JsVal → Bool
  | .str s => s == ""
  | .boolean b => !b
  | .num n => n == 0
  | .undef => true

/-- TransactionRecord (rules.js). counterparty_country empty string models an
absent field, matching the sources where (t.counterparty_country or empty)
is used. -/
structure Tx where
  client_id : String
  date : Int
  direction : String
  method : String
  currency : String
  amount : Int
  counterparty_country : String
deriving Repr, DecidableEq

/-- ClientProfile (rules.js). kyc_last_reviewed_at: none models an
absent/falsy field, some none a present but unparsable date (parseISO gives
NaN), some (some d) a date parsing to day d. -/
structure Client where
  client_id : String
  pep_flag : JsVal
  sanctions_flag : JsVal
  kyc_last_reviewed_at : Option (Option Int)
  delivery_channel : String
  services : String
  residency_country : String
deriving Repr, DecidableEq

/-- LookbackWindow. Field stop models the source field named end, which is a
reserved word in Lean. -/
structure Lookback where
  start : Int
  stop : Int
deriving Repr, DecidableEq

/-- RiskReason. The source wraps each reason with a constant tag field
(type: reason) when building results; the tag is constant and not modelled. -/
structure Reason where
  family : String
  text : String
  points : Int
deriving Repr, DecidableEq

/-- RiskScoreResult (one element of the scores array). -/
structure RiskScoreResult where
  client_id : String
  score : Int
  band : String
  reasons : List Reason
deriving Repr, DecidableEq

/-- Banding thresholds echoed in rulesMeta. -/
structure Banding where
  high : String
  medium : String
  low : String
deriving Repr, DecidableEq

/-- RulesetMetadata (the rulesMeta object returned by scoreAll). -/
structure RulesMeta where
  ruleset_id : String
  lookback : Lookback
  corridors : List String
  banding : Banding
deriving Repr, DecidableEq

/-- The pair returned by scoreAll. -/
structure ScoreOutput where
  scores : List RiskScoreResult
  rulesMeta : RulesMeta
deriving Repr, DecidableEq

/-- HR_COUNTRIES (rules.js line 3); a JS Set, modelled as its insertion-order
element list (Array.from order). -/
def HR_COUNTRIES : List String := ["RU", "CN", "HK", "AE", "IN", "IR"]

/-- toBand (rules.js lines 5-9). -/
def toBand (score : Int) : String :=
  if score ≥ 30 then "High" else if score ≥ 15 then "Medium" else "Low"

/-- daysBetween (rules.js line 11): absolute difference in calendar days. -/
def daysBetween (a b : Int) : Nat := (a - b).natAbs

/-- The lookback filter (rules.js line 19): strictly after the parsed start,
or the date equals lookback.start exactly. -/
def txInLookback (lb : Lookback) (t : Tx) : Bool :=
  decide (lb.start < t.date) || (t.date == lb.start)

/-- The per-client transaction list read back from the txByClient map
(rules.js lines 15-23, 62): grouping by client_id preserves input order
within each client, so reading one key equals filtering the input list. -/
def clientTxs (txs : List Tx) (lb : Lookback) (cid : String) : List Tx :=
  txs.filter (fun t => t.client_id == cid && txInLookback lb t)

/-- Comparison used by the sort on line 62 (date-string localeCompare, which
on normalized ISO dates is day-number order). -/
def byDate (a b : Tx) : Prop := a.date ≤ b.date

instance : DecidableRel byDate := fun a b => inferInstanceAs (Decidable (a.date ≤ b.date))

instance : IsTotal Tx byDate := ⟨fun a b => Int.le_total a.date b.date⟩

instance : IsTrans Tx byDate := ⟨fun _ _ _ h h' => Int.le_trans h h'⟩

/-- The stable sort by date on rules.js line 62. The scoring output depends
on the sorted list only through permutation-invariant observations, so any
stable sort by date gives the same results; we use insertion sort. -/
def sortByDate (l : List Tx) : List Tx := List.insertionSort byDate l

/-- The sorted per-client transaction list txlist (rules.js line 62). -/
def txlistOf (txs : List Tx) (lb : Lookback) (cid : String) : List Tx :=
  sortByDate (clientTxs txs lb cid)

/-- Whether a character list starts with another character list. -/
def startsWithSeg : List Char → List Char → Bool
  | _, [] => true
  | [], _ :: _ => false
  | a :: hs, b :: ns => a == b && startsWithSeg hs ns

/-- Whether a character list contains another as a contiguous segment. -/
def hasSeg : List Char → List Char → Bool
  | [], need => startsWithSeg [] need
  | h :: t, need => startsWithSeg (h :: t) need || hasSeg t need

/-- Model of JavaScript String.prototype.includes. -/
def strIncludes (hay need : String) : Bool := hasSeg hay.toList need.toList

/-- Model of JavaScript String.prototype.toLowerCase, character by
character (equal to String.toLower; on the ASCII data of this repository
JS and Lean lowercasing agree). -/
def strLower (s : String) : String := String.mk (s.data.map Char.toLower)

/-- Model of JavaScript String.prototype.toUpperCase, character by
character. -/
def strUpper (s : String) : String := String.mk (s.data.map Char.toUpper)

/-- The flag test on rules.js lines 31-32:
String(v or empty).toLowerCase() === true-literal. -/
def flagSet (v : JsVal) : Bool :=
  strLower (jsToString (if jsFalsy v then .str "" else v)) == "true"

/-- KYC staleness test (rules.js lines 37-45). -/
def kycStale (lb : Lookback) (c : Client) : Bool :=
  match c.kyc_last_reviewed_at with
  | some (some kd) => decide (lb.stop - kd > 365)
  | _ => false

/-- Delivery channel test (rules.js lines 49-50). -/
def chanOnline (c : Client) : Bool :=
  strIncludes (strLower c.delivery_channel) "online"

/-- Remittance service test (rules.js lines 53-54). -/
def svcRemit (c : Client) : Bool :=
  strIncludes (strLower c.services) "remittance"

/-- Property service test (rules.js line 55). -/
def svcProperty (c : Client) : Bool :=
  strIncludes (strLower c.services) "property"

/-- High-risk residency test (rules.js lines 58-59). -/
def hrResidency (c : Client) : Bool :=
  HR_COUNTRIES.contains (strUpper c.residency_country)

/-- The cashIn filter predicate (rules.js line 65). -/
def isCashIn (t : Tx) : Bool :=
  t.direction == "in" && t.method == "cash" && t.currency == "AUD" &&
    decide (t.amount ≥ 9600) && decide (t.amount ≤ 9999)

/-- The structuring window scan (rules.js lines 66-73): for each position i,
collect the later elements within 7 calendar days of element i and test
whether, with element i itself, at least 4 are in the window. -/
def structuredScan : List Tx → Bool
  | [] => false
  | t :: rest =>
      decide (4 ≤ 1 + (rest.filter (fun u => decide (daysBetween t.date u.date ≤ 7))).length)
        || structuredScan rest

/-- The structured flag computed from the sorted per-client list. -/
def structuredOf (txlist : List Tx) : Bool :=
  structuredScan (txlist.filter isCashIn)

/-- The intlHR filter predicate (rules.js line 77). -/
def isIntlHR (t : Tx) : Bool :=
  t.direction == "out" && HR_COUNTRIES.contains t.counterparty_country &&
    t.currency == "AUD"

/-- High-risk corridor test (rules.js lines 77-80). -/
def corridorOf (txlist : List Tx) : Bool :=
  decide ((txlist.filter isIntlHR).length ≥ 2) &&
    (txlist.filter isIntlHR).any (fun t => decide (t.amount ≥ 20000))

/-- The largeAU filter predicate (rules.js line 83). -/
def isLargeAU (t : Tx) : Bool :=
  t.currency == "AUD" && decide (t.amount ≥ 100000) &&
    (t.counterparty_country == "" || t.counterparty_country == "AU")

/-- Large domestic transfer test (rules.js lines 83-86). -/
def largeAUOf (txlist : List Tx) : Bool :=
  decide ((txlist.filter isLargeAU).length ≥ 1)

def pepReason : Reason := ⟨"profile", "PEP flag", 20⟩

def sancReason : Reason := ⟨"profile", "Sanctions flag", 25⟩

def kycReason : Reason := ⟨"profile", "Stale KYC > 12 months", 5⟩

def onlineReason : Reason := ⟨"profile", "Online channel", 3⟩

def remitReason : Reason := ⟨"profile", "Remittance service", 6⟩

def propertyReason : Reason := ⟨"profile", "Property service", 4⟩

def residencyReason : Reason := ⟨"profile", "High-risk residency", 8⟩

def structuringReason : Reason :=
  ⟨"behaviour", "Structuring pattern (≥4 cash deposits 9.6–9.999k in 7 days)", 12⟩

def corridorReason : Reason :=
  ⟨"behaviour", "High-risk corridor transfers (≥2; one ≥ 20k)", 10⟩

def largeAUReason : Reason := ⟨"behaviour", "Large domestic transfer ≥ 100k", 8⟩

/-- The reasons pushed by the profile rules, in evaluation order
(rules.js lines 30-59). -/
def profileReasons (lb : Lookback) (c : Client) : List Reason :=
  (if flagSet c.pep_flag then [pepReason] else []) ++
  (if flagSet c.sanctions_flag then [sancReason] else []) ++
  (if kycStale lb c then [kycReason] else []) ++
  (if chanOnline c then [onlineReason] else []) ++
  (if svcRemit c then [remitReason] else []) ++
  (if svcProperty c then [propertyReason] else []) ++
  (if hrResidency c then [residencyReason] else [])

/-- The reasons pushed by the behavioural rules, in evaluation order
(rules.js lines 64-86). -/
def behaviouralReasons (txlist : List Tx) : List Reason :=
  (if structuredOf txlist then [structuringReason] else []) ++
  (if corridorOf txlist then [corridorReason] else []) ++
  (if largeAUOf txlist then [largeAUReason] else [])

/-- The score accumulator of the profile rules (the score increments on
rules.js lines 33-59). -/
def profileScore (lb : Lookback) (c : Client) : Int :=
  (if flagSet c.pep_flag then 20 else 0) +
  (if flagSet c.sanctions_flag then 25 else 0) +
  (if kycStale lb c then 5 else 0) +
  (if chanOnline c then 3 else 0) +
  (if svcRemit c then 6 else 0) +
  (if svcProperty c then 4 else 0) +
  (if hrResidency c then 8 else 0)

/-- The score accumulator of the behavioural rules (rules.js lines 74-86). -/
def behaviouralScore (txlist : List Tx) : Int :=
  (if structuredOf txlist then 12 else 0) +
  (if corridorOf txlist then 10 else 0) +
  (if largeAUOf txlist then 8 else 0)

/-- The list of reasons collected for one client. -/
def clientReasons (lb : Lookback) (txs : List Tx) (c : Client) : List Reason :=
  profileReasons lb c ++ behaviouralReasons (txlistOf txs lb c.client_id)

/-- The score accumulated for one client. -/
def clientScore (lb : Lookback) (txs : List Tx) (c : Client) : Int :=
  profileScore lb c + behaviouralScore (txlistOf txs lb c.client_id)

/-- The result object pushed for one client (rules.js lines 88-93). -/
def scoreClient (lb : Lookback) (txs : List Tx) (c : Client) : RiskScoreResult :=
  { client_id := c.client_id
    score := clientScore lb txs c
    band := toBand (clientScore lb txs c)
    reasons := clientReasons lb txs c }

/-- scoreAll (rules.js lines 13-102). The function is async in the source but
performs no IO; it is modelled as a pure function. -/
def scoreAll (clients : List Client) (txs : List Tx) (lb : Lookback) : ScoreOutput :=
  { scores := clients.map (scoreClient lb txs)
    rulesMeta :=
      { ruleset_id := "dnfbp-2025.11"
        lookback := lb
        corridors := HR_COUNTRIES
        banding := ⟨">=30", ">=15", "<15"⟩ } }

/-! Embedding of src/lib/manifest.js. The Node crypto hash, the tweetnacl
signer together with the base64 decode of the private key and the base64
encode of the signature, and the JSON serialization of the signed payload
are external library collaborators; they are modelled as explicit function
parameters. A signer outcome Except.error models a thrown exception caught
by the try/catch on manifest.js lines 19-33. -/

/-- Byte sequences (Node Buffer contents). -/
abbrev ByteSeq := List Nat

/-- One element of the files array of a manifest. -/
structure FileEntry where
  name : String
  bytes : Nat
  sha256 : String
deriving Repr, DecidableEq

/-- The optional signing block of a manifest. -/
structure Signing where
  key_id : String
  signature : String
deriving Repr, DecidableEq

/-- EvidenceManifest (manifest.js lines 11-16, 27-30). -/
structure Manifest where
  created_utc : String
  hash_algo : String
  ruleset_id : String
  files : List FileEntry
  signing : Option Signing
deriving Repr, DecidableEq

/-- The files array built on manifest.js lines 6-10: one entry per key of
the named-blob map, in iteration order, holding the name, the byte length
and the digest of the supplied bytes. -/
def manifestFiles (hash : ByteSeq → String)
    (namedFiles : List (String × ByteSeq)) : List FileEntry :=
  namedFiles.map (fun nf => { name := nf.1, bytes := nf.2.length, sha256 := hash nf.2 })

/-- The manifest object as first assembled on manifest.js lines 11-16,
before the optional signing step. -/
def baseManifest (hash : ByteSeq → String) (createdUtc : String)
    (namedFiles : List (String × ByteSeq)) (meta : RulesMeta) : Manifest :=
  { created_utc := createdUtc
    hash_algo := "SHA-256"
    ruleset_id := meta.ruleset_id
    files := manifestFiles hash namedFiles
    signing := none }

/-- buildManifest (manifest.js lines 5-37). namedFiles models
Object.entries of the named-blob map in its iteration order; createdUtc
models new Date().toISOString(); privKey and pubKey model
cfg.SIGN_PRIVATE_KEY and cfg.SIGN_PUBLIC_KEY, whose configured default is
the empty string, so JS truthiness is the nonemptiness test. -/
def buildManifest (hash : ByteSeq → String)
    (signer : String → ByteSeq → Except Unit String)
    (serialize : List FileEntry → String → String → ByteSeq)
    (privKey pubKey : String) (createdUtc : String)
    (namedFiles : List (String × ByteSeq)) (meta : RulesMeta) : Manifest :=
  if privKey ≠ "" ∧ pubKey ≠ "" then
    match signer privKey
        (serialize (manifestFiles hash namedFiles) createdUtc meta.ruleset_id) with
    | .ok sig =>
        { baseManifest hash createdUtc namedFiles meta with
            signing := some { key_id := "ed25519:app", signature := sig } }
    | .error _ => baseManifest hash createdUtc namedFiles meta
  else baseManifest hash createdUtc namedFiles meta

/-! Embedding of src/lib/verify-store.js. The JS Map holding the entries is
modelled as a function from tokens to optional entries (a JS Map binds each
key to at most one value); Date.now() is modelled as an explicit now
parameter measured in milliseconds. -/

/-- One cached evidence entry (verify-store.js line 7). -/
structure CacheEntry where
  zipBuffer : ByteSeq
  manifest : Manifest
  exp : Int
deriving Repr, DecidableEq

/-- The state of the token cache map. -/
def StoreMap := String → Option CacheEntry

/-- The freshly constructed store (verify-store.js line 4). -/
def emptyStore : StoreMap := fun _ => none

/-- Map.set semantics. -/
def mapSet (m : StoreMap) (k : String) (v : CacheEntry) : StoreMap :=
  fun k' => if k' = k then some v else m k'

/-- Map.delete semantics. -/
def mapDelete (m : StoreMap) (k : String) : StoreMap :=
  fun k' => if k' = k then none else m k'

/-- Store.put (verify-store.js lines 5-8). -/
def storePut (m : StoreMap) (now : Int) (token : String) (zip : ByteSeq)
    (man : Manifest) (ttlMin : Int) : StoreMap :=
  mapSet m token { zipBuffer := zip, manifest := man, exp := now + ttlMin * 60 * 1000 }

/-- Store.get (verify-store.js lines 9-14): returns the value produced and
the map state after the call (the lazy eviction side effect). -/
def storeGet (m : StoreMap) (now : Int) (token : String) :
    Option CacheEntry × StoreMap :=
  match m token with
  | none => (none, m)
  | some v => if now > v.exp then (none, mapDelete m token) else (some v, m)

/-- One externally triggered operation on the verify store. -/
inductive StoreOp where
  | put (now : Int) (token : String) (zip : ByteSeq) (man : Manifest) (ttlMin : Int)
  | get (now : Int) (token : String)
deriving Repr, DecidableEq

/-- Running a sequence of operations against a store state. -/
def runOps (m : StoreMap) : List StoreOp → StoreMap
  | [] => m
  | .put now tok zip man ttl :: rest => runOps (storePut m now tok zip man ttl) rest
  | .get now tok :: rest => runOps (storeGet m now tok).2 rest

/-- Whether an operation is a put of the given token. -/
def isPutOf (tok : String) : StoreOp → Bool
  | .put _ t _ _ _ => t == tok
  | .get _ _ => false

/-! Specification-side characterisation of the structuring rule: the
qualifying transactions and the existence of a set of at least four of them
whose dates pairwise differ by at most 7 calendar days. -/

/-- The qualifying transactions of one client for the structuring rule:
in-lookback, then the cashIn filter of rules.js line 65. -/
def qualTxs (txs : List Tx) (lb : Lookback) (cid : String) : List Tx :=
  (clientTxs txs lb cid).filter isCashIn

/-- All dates of a transaction list lie within 7 calendar days of each
other (the list spans at most 7 days). -/
def spansAtMost7 (s : List Tx) : Prop :=
  ∀ a ∈ s, ∀ b ∈ s, daysBetween a.date b.date ≤ 7

instance (s : List Tx) : Decidable (spansAtMost7 s) :=
  inferInstanceAs (Decidable (∀ a ∈ s, ∀ b ∈ s, daysBetween a.date b.date ≤ 7))

/-- There is a selection of at least 4 elements of l spanning at most 7
calendar days. -/
def hasCluster4 (l : List Tx) : Prop :=
  ∃ s : List Tx, s.Subperm l ∧ 4 ≤ s.length ∧ spansAtMost7 s

lemma structuredScan_of_sublist {l s : List Tx} (hs : s.Sublist l)
    (hlen : 4 ≤ s.length) (hspan : spansAtMost7 s) : structuredScan l = true := by
  induction hs with
  | slnil => simp at hlen
  | cons a h ih =>
      rw [structuredScan, Bool.or_eq_true]
      exact Or.inr (ih hlen hspan)
  | @cons₂ s₁ l₁ a h ih =>
      rw [structuredScan, Bool.or_eq_true]
      left
      have hmem : ∀ u ∈ s₁, (decide (daysBetween a.date u.date ≤ 7)) = true := by
        intro u hu
        exact decide_eq_true
          (hspan a (List.mem_cons_self a s₁) u (List.mem_cons_of_mem a hu))
      have hfs : s₁.filter (fun u => decide (daysBetween a.date u.date ≤ 7)) = s₁ :=
        List.filter_eq_self.mpr hmem
      have hsub : List.Sublist (s₁.filter (fun u => decide (daysBetween a.date u.date ≤ 7)))
          (l₁.filter (fun u => decide (daysBetween a.date u.date ≤ 7))) :=
        h.filter _
      have hle : s₁.length ≤
          (l₁.filter (fun u => decide (daysBetween a.date u.date ≤ 7))).length := by
        calc s₁.length
            = (s₁.filter (fun u => decide (daysBetween a.date u.date ≤ 7))).length := by
              rw [hfs]
          _ ≤ _ := hsub.length_le
      have hlen' : s₁.length + 1 = (a :: s₁).length := by simp
      apply decide_eq_true
      simp only [List.length_cons] at hlen
      omega

lemma structuredScan_of_cluster {l : List Tx} (h : hasCluster4 l) :
    structuredScan l = true := by
  obtain ⟨s, hsub, hlen, hspan⟩ := h
  obtain ⟨s', hperm, hsl⟩ := hsub
  refine structuredScan_of_sublist hsl ?_ ?_
  · rw [hperm.length_eq]; exact hlen
  · intro a ha b hb
    exact hspan a (hperm.mem_iff.mp ha) b (hperm.mem_iff.mp hb)

lemma cluster_of_structuredScan :
    ∀ {l : List Tx}, List.Sorted byDate l → structuredScan l = true → hasCluster4 l := by
  intro l
  induction l with
  | nil => intro _ h; simp [structuredScan] at h
  | cons t rest ih =>
      intro hsort h
      rw [structuredScan, Bool.or_eq_true] at h
      rcases h with h | h
      · have hlen : 4 ≤ 1 +
            (rest.filter (fun u => decide (daysBetween t.date u.date ≤ 7))).length :=
          of_decide_eq_true h
        refine ⟨t :: rest.filter (fun u => decide (daysBetween t.date u.date ≤ 7)),
          (List.Sublist.cons₂ t (List.filter_sublist rest)).subperm,
          by simp only [List.length_cons]; omega, ?_⟩
        have hrest : ∀ b ∈ rest, t.date ≤ b.date := (List.sorted_cons.mp hsort).1
        have hnear : ∀ u ∈ rest.filter (fun u => decide (daysBetween t.date u.date ≤ 7)),
            t.date ≤ u.date ∧ daysBetween t.date u.date ≤ 7 := by
          intro u hu
          obtain ⟨hu1, hu2⟩ := List.mem_filter.mp hu
          exact ⟨hrest u hu1, of_decide_eq_true hu2⟩
        intro a ha b hb
        rcases List.mem_cons.mp ha with rfl | ha <;>
          rcases List.mem_cons.mp hb with rfl | hb
        · simp [daysBetween]
        · exact (hnear b hb).2
        · have := hnear a ha
          unfold daysBetween at this ⊢
          omega
        · have h1 := hnear a ha
          have h2 := hnear b hb
          unfold daysBetween at h1 h2 ⊢
          omega
      · obtain ⟨s, hsub, hlen, hspan⟩ := ih (List.sorted_cons.mp hsort).2 h
        exact ⟨s, hsub.cons_right t, hlen, hspan⟩

lemma hasCluster4_perm {l l' : List Tx} (h : l.Perm l') :
    hasCluster4 l ↔ hasCluster4 l' := by
  constructor <;> intro ⟨s, hsub, hlen, hspan⟩
  · exact ⟨s, hsub.trans h.subperm, hlen, hspan⟩
  · exact ⟨s, hsub.trans h.symm.subperm, hlen, hspan⟩

lemma sorted_txlistOf (txs : List Tx) (lb : Lookback) (cid : String) :
    List.Sorted byDate (txlistOf txs lb cid) :=
  List.sorted_insertionSort byDate (clientTxs txs lb cid)

lemma txlistOf_perm (txs : List Tx) (lb : Lookback) (cid : String) :
    (txlistOf txs lb cid).Perm (clientTxs txs lb cid) :=
  List.perm_insertionSort byDate (clientTxs txs lb cid)

/-- The computed structuring flag agrees with the cluster characterisation
of the qualifying transactions. -/
lemma structuredOf_iff (txs : List Tx) (lb : Lookback) (cid : String) :
    structuredOf (txlistOf txs lb cid) = true ↔ hasCluster4 (qualTxs txs lb cid) := by
  have hperm : ((txlistOf txs lb cid).filter isCashIn).Perm (qualTxs txs lb cid) :=
    (txlistOf_perm txs lb cid).filter isCashIn
  constructor
  · intro h
    exact (hasCluster4_perm hperm).mp
      (cluster_of_structuredScan ((sorted_txlistOf txs lb cid).filter isCashIn) h)
  · intro h
    exact structuredScan_of_cluster ((hasCluster4_perm hperm).mpr h)

/-! Helper lemmas about collected reasons and scores. -/

lemma mem_ite_single {b : Prop} [Decidable b] {r x : Reason} :
    (x ∈ (if b then [r] else [])) ↔ b ∧ x = r := by
  split <;> simp_all

lemma sum_ite_single (b : Prop) [Decidable b] (r : Reason) :
    ((if b then [r] else []).map Reason.points).sum = if b then r.points else 0 := by
  split <;> simp

lemma clientScore_eq_sum (lb : Lookback) (txs : List Tx) (c : Client) :
    clientScore lb txs c = ((clientReasons lb txs c).map Reason.points).sum := by
  simp only [clientScore, clientReasons, profileScore, profileReasons,
    behaviouralScore, behaviouralReasons, List.map_append, List.sum_append,
    sum_ite_single, pepReason, sancReason, kycReason, onlineReason, remitReason,
    propertyReason, residencyReason, structuringReason, corridorReason, largeAUReason]

lemma toBand_high (s : Int) : toBand s = "High" ↔ 30 ≤ s := by
  unfold toBand
  split_ifs with h1 h2
  · exact ⟨fun _ => h1, fun _ => rfl⟩
  · exact ⟨fun h => absurd h (by decide), fun h => absurd h h1⟩
  · exact ⟨fun h => absurd h (by decide), fun h => absurd h h1⟩

lemma toBand_medium (s : Int) : toBand s = "Medium" ↔ 15 ≤ s ∧ s < 30 := by
  unfold toBand
  split_ifs with h1 h2
  · exact ⟨fun h => absurd h (by decide), fun h => absurd h1 (by omega)⟩
  · exact ⟨fun _ => ⟨h2, by omega⟩, fun _ => rfl⟩
  · exact ⟨fun h => absurd h (by decide), fun h => absurd h2 (by omega)⟩

lemma toBand_low (s : Int) : toBand s = "Low" ↔ s < 15 := by
  unfold toBand
  split_ifs with h1 h2
  · exact ⟨fun h => absurd h (by decide), fun h => absurd h1 (by omega)⟩
  · exact ⟨fun h => absurd h (by decide), fun h => absurd h2 (by omega)⟩
  · exact ⟨fun _ => by omega, fun _ => rfl⟩

lemma structuring_mem_reasons (lb : Lookback) (txs : List Tx) (c : Client) :
    structuringReason ∈ clientReasons lb txs c ↔
      structuredOf (txlistOf txs lb c.client_id) = true := by
  have h1 : structuringReason ≠ pepReason := by decide
  have h2 : structuringReason ≠ sancReason := by decide
  have h3 : structuringReason ≠ kycReason := by decide
  have h4 : structuringReason ≠ onlineReason := by decide
  have h5 : structuringReason ≠ remitReason := by decide
  have h6 : structuringReason ≠ propertyReason := by decide
  have h7 : structuringReason ≠ residencyReason := by decide
  have h8 : structuringReason ≠ corridorReason := by decide
  have h9 : structuringReason ≠ largeAUReason := by decide
  simp [clientReasons, profileReasons, behaviouralReasons, mem_ite_single,
    h1, h2, h3, h4, h5, h6, h7, h8, h9]

lemma pep_mem_reasons (lb : Lookback) (txs : List Tx) (c : Client) :
    pepReason ∈ clientReasons lb txs c ↔ flagSet c.pep_flag = true := by
  have h1 : pepReason ≠ sancReason := by decide
  have h2 : pepReason ≠ kycReason := by decide
  have h3 : pepReason ≠ onlineReason := by decide
  have h4 : pepReason ≠ remitReason := by decide
  have h5 : pepReason ≠ propertyReason := by decide
  have h6 : pepReason ≠ residencyReason := by decide
  have h7 : pepReason ≠ structuringReason := by decide
  have h8 : pepReason ≠ corridorReason := by decide
  have h9 : pepReason ≠ largeAUReason := by decide
  simp [clientReasons, profileReasons, behaviouralReasons, mem_ite_single,
    h1, h2, h3, h4, h5, h6, h7, h8, h9]

lemma sanc_mem_reasons (lb : Lookback) (txs : List Tx) (c : Client) :
    sancReason ∈ clientReasons lb txs c ↔ flagSet c.sanctions_flag = true := by
  have h1 : sancReason ≠ pepReason := by decide
  have h2 : sancReason ≠ kycReason := by decide
  have h3 : sancReason ≠ onlineReason := by decide
  have h4 : sancReason ≠ remitReason := by decide
  have h5 : sancReason ≠ propertyReason := by decide
  have h6 : sancReason ≠ residencyReason := by decide
  have h7 : sancReason ≠ structuringReason := by decide
  have h8 : sancReason ≠ corridorReason := by decide
  have h9 : sancReason ≠ largeAUReason := by decide
  simp [clientReasons, profileReasons, behaviouralReasons, mem_ite_single,
    h1, h2, h3, h4, h5, h6, h7, h8, h9]

/-- C1: every RiskScoreResult produced by scoreAll has score equal to the
sum of the points of its reasons, and its band is High iff score is at
least 30, Medium iff the score is at least 15 and below 30, and Low iff the
score is below 15. -/
theorem scoreAll_score_band (clients : List Client) (txs : List Tx) (lb : Lookback)
    (r : RiskScoreResult) (hr : r ∈ (scoreAll clients txs lb).scores) :
    r.score = (r.reasons.map Reason.points).sum ∧
    (r.band = "High" ↔ 30 ≤ r.score) ∧
    (r.band = "Medium" ↔ 15 ≤ r.score ∧ r.score < 30) ∧
    (r.band = "Low" ↔ r.score < 15) := by
  simp only [scoreAll, List.mem_map] at hr
  obtain ⟨c, _, rfl⟩ := hr
  exact ⟨clientScore_eq_sum lb txs c, toBand_high _, toBand_medium _, toBand_low _⟩

/-- Witness for C1 at a concrete input: one client with only the PEP flag
set, no transactions. -/
theorem scoreAll_score_band_witness :
    (⟨"c1", 20, "Medium", [pepReason]⟩ : RiskScoreResult) ∈
      (scoreAll [⟨"c1", .str "true", .undef, none, "", "", ""⟩] [] ⟨0, 548⟩).scores ∧
    ((⟨"c1", 20, "Medium", [pepReason]⟩ : RiskScoreResult).score =
      (List.map Reason.points (⟨"c1", 20, "Medium", [pepReason]⟩ : RiskScoreResult).reasons).sum ∧
    ((⟨"c1", 20, "Medium", [pepReason]⟩ : RiskScoreResult).band = "High" ↔
      30 ≤ (⟨"c1", 20, "Medium", [pepReason]⟩ : RiskScoreResult).score) ∧
    ((⟨"c1", 20, "Medium", [pepReason]⟩ : RiskScoreResult).band = "Medium" ↔
      15 ≤ (⟨"c1", 20, "Medium", [pepReason]⟩ : RiskScoreResult).score ∧
        (⟨"c1", 20, "Medium", [pepReason]⟩ : RiskScoreResult).score < 30) ∧
    ((⟨"c1", 20, "Medium", [pepReason]⟩ : RiskScoreResult).band = "Low" ↔
      (⟨"c1", 20, "Medium", [pepReason]⟩ : RiskScoreResult).score < 15)) :=
  ⟨by decide, scoreAll_score_band [⟨"c1", .str "true", .undef, none, "", "", ""⟩] []
    ⟨0, 548⟩ ⟨"c1", 20, "Medium", [pepReason]⟩ (by decide)⟩

/-- C2: the structuring reason is emitted iff among the qualifying
transactions of the client (in-lookback, cash, inbound, AUD, amount in
[9600, 9999]) there is a selection of at least 4 spanning at most 7
calendar days; 3 or fewer qualifying transactions never trigger it, and 4
qualifying transactions two of which are more than 7 days apart never
trigger it. -/
theorem structuring_rule (lb : Lookback) (txs : List Tx) (c : Client) :
    (structuringReason ∈ (scoreClient lb txs c).reasons ↔
      hasCluster4 (qualTxs txs lb c.client_id)) ∧
    ((qualTxs txs lb c.client_id).length ≤ 3 →
      structuringReason ∉ (scoreClient lb txs c).reasons) ∧
    ((qualTxs txs lb c.client_id).length = 4 →
      (∃ a ∈ qualTxs txs lb c.client_id, ∃ b ∈ qualTxs txs lb c.client_id,
        7 < daysBetween a.date b.date) →
      structuringReason ∉ (scoreClient lb txs c).reasons) := by
  have hmain : structuringReason ∈ (scoreClient lb txs c).reasons ↔
      hasCluster4 (qualTxs txs lb c.client_id) :=
    (structuring_mem_reasons lb txs c).trans (structuredOf_iff txs lb c.client_id)
  refine ⟨hmain, ?_, ?_⟩
  · intro hlen hmem
    obtain ⟨s, hsub, hslen, _⟩ := hmain.mp hmem
    have := hsub.length_le
    omega
  · rintro hlen ⟨a, ha, b, hb, hfar⟩ hmem
    obtain ⟨s, hsub, hslen, hspan⟩ := hmain.mp hmem
    have hperm : s.Perm (qualTxs txs lb c.client_id) :=
      hsub.perm_of_length_le (by omega)
    exact absurd (hspan a (hperm.mem_iff.mpr ha) b (hperm.mem_iff.mpr hb)) (by omega)

/-- Witness for C2: a trigger with 4 qualifying deposits within 7 days, a
non-trigger with only 3, and a non-trigger with 4 spanning 8 days. -/
theorem structuring_rule_witness :
    (structuringReason ∈ (scoreClient ⟨0, 548⟩
      [⟨"c1", 1, "in", "cash", "AUD", 9700, ""⟩, ⟨"c1", 2, "in", "cash", "AUD", 9700, ""⟩,
       ⟨"c1", 3, "in", "cash", "AUD", 9700, ""⟩, ⟨"c1", 5, "in", "cash", "AUD", 9700, ""⟩]
      ⟨"c1", .undef, .undef, none, "", "", ""⟩).reasons) ∧
    (structuringReason ∉ (scoreClient ⟨0, 548⟩
      [⟨"c1", 1, "in", "cash", "AUD", 9700, ""⟩, ⟨"c1", 2, "in", "cash", "AUD", 9700, ""⟩,
       ⟨"c1", 3, "in", "cash", "AUD", 9700, ""⟩]
      ⟨"c1", .undef, .undef, none, "", "", ""⟩).reasons) ∧
    (structuringReason ∉ (scoreClient ⟨0, 548⟩
      [⟨"c1", 1, "in", "cash", "AUD", 9700, ""⟩, ⟨"c1", 2, "in", "cash", "AUD", 9700, ""⟩,
       ⟨"c1", 3, "in", "cash", "AUD", 9700, ""⟩, ⟨"c1", 9, "in", "cash", "AUD", 9700, ""⟩]
      ⟨"c1", .undef, .undef, none, "", "", ""⟩).reasons) :=
  ⟨(structuring_rule ⟨0, 548⟩
      [⟨"c1", 1, "in", "cash", "AUD", 9700, ""⟩, ⟨"c1", 2, "in", "cash", "AUD", 9700, ""⟩,
       ⟨"c1", 3, "in", "cash", "AUD", 9700, ""⟩, ⟨"c1", 5, "in", "cash", "AUD", 9700, ""⟩]
      ⟨"c1", .undef, .undef, none, "", "", ""⟩).1.mpr
      ⟨[⟨"c1", 1, "in", "cash", "AUD", 9700, ""⟩, ⟨"c1", 2, "in", "cash", "AUD", 9700, ""⟩,
        ⟨"c1", 3, "in", "cash", "AUD", 9700, ""⟩, ⟨"c1", 5, "in", "cash", "AUD", 9700, ""⟩],
       (by decide : List.Sublist _ _).subperm, by decide, by decide⟩,
   (structuring_rule ⟨0, 548⟩
      [⟨"c1", 1, "in", "cash", "AUD", 9700, ""⟩, ⟨"c1", 2, "in", "cash", "AUD", 9700, ""⟩,
       ⟨"c1", 3, "in", "cash", "AUD", 9700, ""⟩]
      ⟨"c1", .undef, .undef, none, "", "", ""⟩).2.1 (by decide),
   (structuring_rule ⟨0, 548⟩
      [⟨"c1", 1, "in", "cash", "AUD", 9700, ""⟩, ⟨"c1", 2, "in", "cash", "AUD", 9700, ""⟩,
       ⟨"c1", 3, "in", "cash", "AUD", 9700, ""⟩, ⟨"c1", 9, "in", "cash", "AUD", 9700, ""⟩]
      ⟨"c1", .undef, .undef, none, "", "", ""⟩).2.2 (by decide) (by decide)⟩

lemma bool_eq_of_iff {a b : Bool} (h : a = true ↔ b = true) : a = b := by
  cases a <;> cases b <;> simp_all

lemma scoreClient_perm (lb : Lookback) {txs txs' : List Tx}
    (h : txs.Perm txs') (c : Client) : scoreClient lb txs c = scoreClient lb txs' c := by
  have hq : (clientTxs txs lb c.client_id).Perm (clientTxs txs' lb c.client_id) :=
    h.filter _
  have htx : (txlistOf txs lb c.client_id).Perm (txlistOf txs' lb c.client_id) :=
    ((txlistOf_perm txs lb c.client_id).trans hq).trans
      (txlistOf_perm txs' lb c.client_id).symm
  have hstruct : structuredOf (txlistOf txs lb c.client_id) =
      structuredOf (txlistOf txs' lb c.client_id) := by
    refine bool_eq_of_iff ?_
    rw [structuredOf_iff, structuredOf_iff]
    exact hasCluster4_perm (hq.filter isCashIn)
  have hintl : ((txlistOf txs lb c.client_id).filter isIntlHR).Perm
      ((txlistOf txs' lb c.client_id).filter isIntlHR) := htx.filter _
  have hcorr : corridorOf (txlistOf txs lb c.client_id) =
      corridorOf (txlistOf txs' lb c.client_id) := by
    unfold corridorOf
    rw [hintl.length_eq]
    have hany : ((txlistOf txs lb c.client_id).filter isIntlHR).any
        (fun t => decide (t.amount ≥ 20000)) =
        ((txlistOf txs' lb c.client_id).filter isIntlHR).any
        (fun t => decide (t.amount ≥ 20000)) := by
      refine bool_eq_of_iff ?_
      simp only [List.any_eq_true]
      exact ⟨fun ⟨x, hx, hp⟩ => ⟨x, hintl.subset hx, hp⟩,
        fun ⟨x, hx, hp⟩ => ⟨x, hintl.symm.subset hx, hp⟩⟩
    rw [hany]
  have hlarge : largeAUOf (txlistOf txs lb c.client_id) =
      largeAUOf (txlistOf txs' lb c.client_id) := by
    unfold largeAUOf
    rw [(htx.filter isLargeAU).length_eq]
  unfold scoreClient clientScore clientReasons behaviouralScore behaviouralReasons
  rw [hstruct, hcorr, hlarge]

/-- C5: scoreAll is invariant under permutation of the input transaction
list: same per-client scores, bands, reasons (in the same order) and the
same ruleset metadata. -/
theorem scoreAll_perm_invariant (clients : List Client) (lb : Lookback)
    {txs txs' : List Tx} (h : txs.Perm txs') :
    scoreAll clients txs lb = scoreAll clients txs' lb := by
  unfold scoreAll
  have : clients.map (scoreClient lb txs) = clients.map (scoreClient lb txs') :=
    List.map_congr_left (fun c _ => scoreClient_perm lb h c)
  rw [this]

/-- Witness for C5: swapping two transactions leaves the output unchanged. -/
theorem scoreAll_perm_invariant_witness :
    (([⟨"c1", 1, "in", "cash", "AUD", 9700, ""⟩, ⟨"c1", 2, "out", "other", "AUD", 150000, "AU"⟩] :
        List Tx).Perm
      [⟨"c1", 2, "out", "other", "AUD", 150000, "AU"⟩, ⟨"c1", 1, "in", "cash", "AUD", 9700, ""⟩]) ∧
    scoreAll [⟨"c1", .undef, .undef, none, "", "", ""⟩]
      [⟨"c1", 1, "in", "cash", "AUD", 9700, ""⟩, ⟨"c1", 2, "out", "other", "AUD", 150000, "AU"⟩]
      ⟨0, 548⟩ =
    scoreAll [⟨"c1", .undef, .undef, none, "", "", ""⟩]
      [⟨"c1", 2, "out", "other", "AUD", 150000, "AU"⟩, ⟨"c1", 1, "in", "cash", "AUD", 9700, ""⟩]
      ⟨0, 548⟩ :=
  ⟨List.Perm.swap _ _ _,
   scoreAll_perm_invariant [⟨"c1", .undef, .undef, none, "", "", ""⟩] ⟨0, 548⟩
     (List.Perm.swap _ _ _)⟩

lemma clientTxs_filter_scope (lb : Lookback) (txs : List Tx) (cid : String) :
    clientTxs (txs.filter (fun t => t.client_id == cid && decide (lb.start ≤ t.date))) lb cid =
      clientTxs txs lb cid := by
  unfold clientTxs
  rw [List.filter_filter]
  refine List.filter_congr (fun t _ => ?_)
  refine bool_eq_of_iff ?_
  simp only [Bool.and_eq_true, Bool.or_eq_true, decide_eq_true_eq, beq_iff_eq, txInLookback]
  constructor
  · rintro ⟨⟨h1, h2⟩, _⟩
    exact ⟨h1, h2⟩
  · rintro ⟨h1, h2⟩
    exact ⟨⟨h1, h2⟩, h1, by omega⟩

/-- C7: the behavioural transaction list of a client consists exactly of
the input transactions with that client id and date on or after
lookback.start (boundary inclusive), and the per-client result only
depends on those transactions. -/
theorem lookback_scope (lb : Lookback) (txs : List Tx) (c : Client) :
    (∀ t : Tx, t ∈ txlistOf txs lb c.client_id ↔
      t ∈ txs ∧ t.client_id = c.client_id ∧ lb.start ≤ t.date) ∧
    scoreClient lb txs c =
      scoreClient lb
        (txs.filter (fun t => t.client_id == c.client_id && decide (lb.start ≤ t.date))) c := by
  constructor
  · intro t
    rw [(txlistOf_perm txs lb c.client_id).mem_iff]
    simp only [clientTxs, List.mem_filter, Bool.and_eq_true, beq_iff_eq, txInLookback,
      Bool.or_eq_true, decide_eq_true_eq]
    constructor
    · rintro ⟨h1, h2, h3⟩
      exact ⟨h1, h2, by omega⟩
    · rintro ⟨h1, h2, h3⟩
      exact ⟨h1, h2, by omega⟩
  · unfold scoreClient clientScore clientReasons txlistOf
    rw [clientTxs_filter_scope]

/-- Witness for C7: a transaction dated exactly at lookback.start is
included in the behavioural list. -/
theorem lookback_scope_witness :
    ((⟨"c1", 0, "in", "cash", "AUD", 9700, ""⟩ : Tx) ∈
      txlistOf [⟨"c1", 0, "in", "cash", "AUD", 9700, ""⟩] ⟨0, 548⟩
        (Client.client_id ⟨"c1", .undef, .undef, none, "", "", ""⟩) ↔
      (⟨"c1", 0, "in", "cash", "AUD", 9700, ""⟩ : Tx) ∈
        [(⟨"c1", 0, "in", "cash", "AUD", 9700, ""⟩ : Tx)] ∧
      Tx.client_id ⟨"c1", 0, "in", "cash", "AUD", 9700, ""⟩ =
        Client.client_id ⟨"c1", .undef, .undef, none, "", "", ""⟩ ∧
      Lookback.start ⟨0, 548⟩ ≤ Tx.date ⟨"c1", 0, "in", "cash", "AUD", 9700, ""⟩) ∧
    scoreClient ⟨0, 548⟩ [⟨"c1", 0, "in", "cash", "AUD", 9700, ""⟩]
      ⟨"c1", .undef, .undef, none, "", "", ""⟩ =
    scoreClient ⟨0, 548⟩
      ([⟨"c1", 0, "in", "cash", "AUD", 9700, ""⟩].filter
        (fun t => t.client_id == Client.client_id ⟨"c1", .undef, .undef, none, "", "", ""⟩ &&
          decide (Lookback.start ⟨0, 548⟩ ≤ t.date)))
      ⟨"c1", .undef, .undef, none, "", "", ""⟩ :=
  ⟨(lookback_scope ⟨0, 548⟩ [⟨"c1", 0, "in", "cash", "AUD", 9700, ""⟩]
      ⟨"c1", .undef, .undef, none, "", "", ""⟩).1 ⟨"c1", 0, "in", "cash", "AUD", 9700, ""⟩,
   (lookback_scope ⟨0, 548⟩ [⟨"c1", 0, "in", "cash", "AUD", 9700, ""⟩]
      ⟨"c1", .undef, .undef, none, "", "", ""⟩).2⟩

/-- C8: scoreAll yields no result rows for an empty client list, one row
per client always, and a client with no in-lookback transactions and no
profile signals scores 0, band Low, with no reasons. -/
theorem empty_inputs_safe (lb : Lookback) (txs : List Tx) (clients : List Client)
    (c : Client)
    (hempty : clientTxs txs lb c.client_id = [])
    (hpep : flagSet c.pep_flag = false) (hsanc : flagSet c.sanctions_flag = false)
    (hkyc : kycStale lb c = false) (hchan : chanOnline c = false)
    (hremit : svcRemit c = false) (hprop : svcProperty c = false)
    (hres : hrResidency c = false) :
    (scoreAll [] txs lb).scores = [] ∧
    (scoreAll clients [] lb).scores.length = clients.length ∧
    scoreClient lb txs c = ⟨c.client_id, 0, "Low", []⟩ := by
  refine ⟨by simp [scoreAll], by simp [scoreAll], ?_⟩
  have htx : txlistOf txs lb c.client_id = [] := by
    rw [txlistOf, hempty]
    rfl
  simp [scoreClient, clientScore, clientReasons, profileScore, profileReasons,
    behaviouralScore, behaviouralReasons, htx, hpep, hsanc, hkyc, hchan, hremit,
    hprop, hres, structuredOf, structuredScan, corridorOf, largeAUOf, toBand]

/-- Witness for C8: a signal-free client and an out-of-lookback
transaction. -/
theorem empty_inputs_safe_witness :
    (scoreAll [] [⟨"c1", 100, "in", "cash", "AUD", 9700, ""⟩] ⟨200, 548⟩).scores = [] ∧
    (scoreAll [⟨"c1", .undef, .undef, none, "", "", ""⟩] [] ⟨200, 548⟩).scores.length =
      [(⟨"c1", .undef, .undef, none, "", "", ""⟩ : Client)].length ∧
    scoreClient ⟨200, 548⟩ [⟨"c1", 100, "in", "cash", "AUD", 9700, ""⟩]
      ⟨"c1", .undef, .undef, none, "", "", ""⟩ = ⟨"c1", 0, "Low", []⟩ :=
  empty_inputs_safe ⟨200, 548⟩ [⟨"c1", 100, "in", "cash", "AUD", 9700, ""⟩]
    [⟨"c1", .undef, .undef, none, "", "", ""⟩] ⟨"c1", .undef, .undef, none, "", "", ""⟩
    (by decide) (by decide) (by decide) (by decide) (by decide) (by decide) (by decide)
    (by decide)

lemma flagSet_iff (v : JsVal) : flagSet v = true ↔ strLower (jsToString v) = "true" := by
  cases v with
  | str s =>
      by_cases h : s = ""
      · subst h
        decide
      · have hf : jsFalsy (.str s) = false := by simp [jsFalsy, h]
        simp [flagSet, hf, jsToString]
  | boolean b => cases b <;> decide
  | num n =>
      by_cases h : n = 0
      · subst h
        decide
      · have hf : jsFalsy (.num n) = false := by simp [jsFalsy, h]
        simp [flagSet, hf, jsToString]
  | undef => decide

/-- C10: the PEP and sanctions reasons are emitted iff the flag value,
converted to a string and lowercased, equals exactly the string true; in
particular boolean true and the string TRUE count as set, while other
truthy values (yes, 1, TRUE with trailing whitespace) do not, nor do empty
or absent values. -/
theorem flag_semantics (lb : Lookback) (txs : List Tx) (c : Client) :
    (pepReason ∈ (scoreClient lb txs c).reasons ↔
      strLower (jsToString c.pep_flag) = "true") ∧
    (sancReason ∈ (scoreClient lb txs c).reasons ↔
      strLower (jsToString c.sanctions_flag) = "true") ∧
    flagSet (.boolean true) = true ∧
    flagSet (.str "TRUE") = true ∧
    flagSet (.str "TRUE ") = false ∧
    flagSet (.str "yes") = false ∧
    flagSet (.str "1") = false ∧
    flagSet (.num 1) = false ∧
    flagSet (.str "") = false ∧
    flagSet .undef = false := by
  have hpep : pepReason ∈ (scoreClient lb txs c).reasons ↔ flagSet c.pep_flag = true :=
    pep_mem_reasons lb txs c
  have hsanc : sancReason ∈ (scoreClient lb txs c).reasons ↔
      flagSet c.sanctions_flag = true :=
    sanc_mem_reasons lb txs c
  exact ⟨hpep.trans (flagSet_iff c.pep_flag), hsanc.trans (flagSet_iff c.sanctions_flag),
    by decide, by decide, by decide, by decide, by decide, by decide, by decide, by decide⟩

/-- Witness for C10: boolean true sets the PEP flag, the string yes does
not set the sanctions flag. -/
theorem flag_semantics_witness :
    pepReason ∈ (scoreClient ⟨0, 548⟩ []
      ⟨"c1", .boolean true, .str "yes", none, "", "", ""⟩).reasons ∧
    sancReason ∉ (scoreClient ⟨0, 548⟩ []
      ⟨"c1", .boolean true, .str "yes", none, "", "", ""⟩).reasons :=
  ⟨(flag_semantics ⟨0, 548⟩ [] ⟨"c1", .boolean true, .str "yes", none, "", "", ""⟩).1.mpr
      (by decide),
   fun hmem => absurd
     ((flag_semantics ⟨0, 548⟩ [] ⟨"c1", .boolean true, .str "yes", none, "", "", ""⟩).2.1.mp
       hmem)
     (by decide)⟩

/-- C4: the signing field is present iff both keys are configured and the
signing computation succeeds; on a signing error the manifest is still
returned, identical except for the absent signing field; with no keys
configured the manifest never carries a signing field. -/
theorem manifest_signing (hash : ByteSeq → String)
    (signer : String → ByteSeq → Except Unit String)
    (serialize : List FileEntry → String → String → ByteSeq)
    (privKey pubKey createdUtc : String)
    (namedFiles : List (String × ByteSeq)) (meta : RulesMeta) :
    ((buildManifest hash signer serialize privKey pubKey createdUtc namedFiles meta).signing
        ≠ none ↔
      privKey ≠ "" ∧ pubKey ≠ "" ∧ ∃ s, signer privKey
        (serialize (manifestFiles hash namedFiles) createdUtc meta.ruleset_id) = .ok s) ∧
    (∀ e, signer privKey
        (serialize (manifestFiles hash namedFiles) createdUtc meta.ruleset_id) = .error e →
      buildManifest hash signer serialize privKey pubKey createdUtc namedFiles meta =
        baseManifest hash createdUtc namedFiles meta) ∧
    (privKey = "" ∨ pubKey = "" →
      (buildManifest hash signer serialize privKey pubKey createdUtc namedFiles meta).signing
        = none) := by
  unfold buildManifest
  by_cases hk : privKey ≠ "" ∧ pubKey ≠ ""
  · rw [if_pos hk]
    cases hs : signer privKey
        (serialize (manifestFiles hash namedFiles) createdUtc meta.ruleset_id) with
    | ok sig =>
        refine ⟨⟨fun _ => ⟨hk.1, hk.2, sig, rfl⟩, fun _ => by simp⟩, ?_, ?_⟩
        · intro e he
          exact absurd he (by simp)
        · intro hor
          rcases hor with h | h
          · exact absurd h hk.1
          · exact absurd h hk.2
    | error e =>
        refine ⟨⟨fun hne => absurd rfl hne, ?_⟩, fun _ _ => rfl, fun _ => rfl⟩
        rintro ⟨_, _, s, hok⟩
        exact absurd hok (by simp)
  · rw [if_neg hk]
    refine ⟨⟨fun hne => absurd rfl hne, fun h => ?_⟩, fun _ _ => rfl, fun _ => rfl⟩
    exact absurd ⟨h.1, h.2.1⟩ hk

/-- Witness for C4: with no keys configured the returned manifest has no
signing field, and a failing signer still yields the base manifest. -/
theorem manifest_signing_witness :
    ((buildManifest (fun _ => "h") (fun _ _ => .error ()) (fun _ _ _ => [])
        "" "" "t0" [("a", [1, 2])] ⟨"dnfbp-2025.11", ⟨0, 548⟩, HR_COUNTRIES,
          ⟨">=30", ">=15", "<15"⟩⟩).signing = none) ∧
    buildManifest (fun _ => "h") (fun _ _ => .error ()) (fun _ _ _ => [])
        "k1" "k2" "t0" [("a", [1, 2])] ⟨"dnfbp-2025.11", ⟨0, 548⟩, HR_COUNTRIES,
          ⟨">=30", ">=15", "<15"⟩⟩ =
      baseManifest (fun _ => "h") "t0" [("a", [1, 2])] ⟨"dnfbp-2025.11", ⟨0, 548⟩,
        HR_COUNTRIES, ⟨">=30", ">=15", "<15"⟩⟩ :=
  ⟨(manifest_signing (fun _ => "h") (fun _ _ => .error ()) (fun _ _ _ => [])
      "" "" "t0" [("a", [1, 2])] ⟨"dnfbp-2025.11", ⟨0, 548⟩, HR_COUNTRIES,
        ⟨">=30", ">=15", "<15"⟩⟩).2.2 (Or.inl rfl),
   (manifest_signing (fun _ => "h") (fun _ _ => .error ()) (fun _ _ _ => [])
      "k1" "k2" "t0" [("a", [1, 2])] ⟨"dnfbp-2025.11", ⟨0, 548⟩, HR_COUNTRIES,
        ⟨">=30", ">=15", "<15"⟩⟩).2.1 () rfl⟩

/-- C6: the manifest records one file entry per named blob in map
iteration order, holding the name, byte length and digest of exactly the
supplied bytes; the hash algorithm identifier is SHA-256; recomputing the
digest of the bytes at any index reproduces the recorded digest. -/
theorem manifest_files_digests (hash : ByteSeq → String)
    (signer : String → ByteSeq → Except Unit String)
    (serialize : List FileEntry → String → String → ByteSeq)
    (privKey pubKey createdUtc : String)
    (namedFiles : List (String × ByteSeq)) (meta : RulesMeta) :
    ((buildManifest hash signer serialize privKey pubKey createdUtc namedFiles meta).files =
      namedFiles.map (fun nf => ⟨nf.1, nf.2.length, hash nf.2⟩)) ∧
    ((buildManifest hash signer serialize privKey pubKey createdUtc namedFiles
        meta).hash_algo = "SHA-256") ∧
    ((buildManifest hash signer serialize privKey pubKey createdUtc namedFiles
        meta).files.map FileEntry.name = namedFiles.map Prod.fst) ∧
    (∀ i : Nat,
      ((buildManifest hash signer serialize privKey pubKey createdUtc namedFiles
        meta).files[i]?).map FileEntry.sha256 = (namedFiles[i]?).map (fun nf => hash nf.2)) := by
  have hfiles : (buildManifest hash signer serialize privKey pubKey createdUtc namedFiles
      meta).files = manifestFiles hash namedFiles := by
    unfold buildManifest
    split
    · split <;> rfl
    · rfl
  have halgo : (buildManifest hash signer serialize privKey pubKey createdUtc namedFiles
      meta).hash_algo = "SHA-256" := by
    unfold buildManifest
    split
    · split <;> rfl
    · rfl
  refine ⟨hfiles, halgo, ?_, ?_⟩
  · rw [hfiles]
    simp [manifestFiles]
  · intro i
    rw [hfiles]
    simp [manifestFiles, List.getElem?_map, Option.map_map]
    rfl

/-- C3: get immediately after put with a positive TTL returns the stored
entry unchanged; once the current time exceeds the expiry, get returns
not-found and removes the entry, and every later get for the token also
returns not-found. -/
theorem store_ttl (m : StoreMap) (now now2 now3 : Int) (tok : String)
    (zip : ByteSeq) (man : Manifest) (ttl : Int)
    (httl : 0 < ttl) (hexp : now + ttl * 60 * 1000 < now2) :
    (storeGet (storePut m now tok zip man ttl) now tok).1 =
      some { zipBuffer := zip, manifest := man, exp := now + ttl * 60 * 1000 } ∧
    (storeGet (storePut m now tok zip man ttl) now2 tok).1 = none ∧
    (storeGet (storePut m now tok zip man ttl) now2 tok).2 tok = none ∧
    (storeGet ((storeGet (storePut m now tok zip man ttl) now2 tok).2) now3 tok).1 =
      none := by
  have hput : storePut m now tok zip man ttl tok =
      some { zipBuffer := zip, manifest := man, exp := now + ttl * 60 * 1000 } := by
    simp [storePut, mapSet]
  have hfresh : ¬ (now > now + ttl * 60 * 1000) := by omega
  have hstale : now2 > now + ttl * 60 * 1000 := hexp
  have h1 : (storeGet (storePut m now tok zip man ttl) now tok).1 =
      some { zipBuffer := zip, manifest := man, exp := now + ttl * 60 * 1000 } := by
    unfold storeGet
    rw [hput]
    simp [hfresh]
  have h2full : storeGet (storePut m now tok zip man ttl) now2 tok =
      (none, mapDelete (storePut m now tok zip man ttl) tok) := by
    unfold storeGet
    rw [hput]
    simp [hstale]
  have hdel : mapDelete (storePut m now tok zip man ttl) tok tok = none := by
    simp [mapDelete]
  refine ⟨h1, ?_, ?_, ?_⟩
  · rw [h2full]
  · rw [h2full]
    exact hdel
  · rw [h2full]
    show (storeGet (mapDelete (storePut m now tok zip man ttl) tok) now3 tok).1 = none
    unfold storeGet
    rw [hdel]

/-- Witness for C3 at a concrete input: a one-minute TTL entry stored at
time 0, read back at time 0 and again after 60001 ms. -/
theorem store_ttl_witness :
    (storeGet (storePut emptyStore 0 "t" [1, 2] ⟨"t0", "SHA-256", "r", [], none⟩ 1) 0
        "t").1 =
      some { zipBuffer := [1, 2], manifest := ⟨"t0", "SHA-256", "r", [], none⟩,
             exp := 0 + 1 * 60 * 1000 } ∧
    (storeGet (storePut emptyStore 0 "t" [1, 2] ⟨"t0", "SHA-256", "r", [], none⟩ 1) 60001
        "t").1 = none ∧
    (storeGet (storePut emptyStore 0 "t" [1, 2] ⟨"t0", "SHA-256", "r", [], none⟩ 1) 60001
        "t").2 "t" = none ∧
    (storeGet ((storeGet (storePut emptyStore 0 "t" [1, 2]
        ⟨"t0", "SHA-256", "r", [], none⟩ 1) 60001 "t").2) 99999 "t").1 = none :=
  store_ttl emptyStore 0 60001 99999 "t" [1, 2] ⟨"t0", "SHA-256", "r", [], none⟩ 1
    (by decide) (by decide)

lemma storeGet_snd_cases (m : StoreMap) (now : Int) (t tok : String) :
    (storeGet m now t).2 tok = m tok ∨ (storeGet m now t).2 tok = none := by
  unfold storeGet
  cases hv : m t with
  | none => exact Or.inl rfl
  | some v =>
      by_cases hexp : now > v.exp
      · by_cases htok : tok = t
        · refine Or.inr ?_
          simp [hexp, mapDelete, htok]
        · refine Or.inl ?_
          simp [hexp, mapDelete, htok]
      · refine Or.inl ?_
        simp [hexp]

lemma storePut_other (m : StoreMap) (now : Int) (t tok : String) (zip : ByteSeq)
    (man : Manifest) (ttl : Int) (h : (t == tok) = false) :
    storePut m now t zip man ttl tok = m tok := by
  have : tok ≠ t := fun he => by simp [he] at h
  simp [storePut, mapSet, this]

lemma runOps_no_put :
    ∀ (ops : List StoreOp) (m : StoreMap) (tok : String),
    (∀ op ∈ ops, isPutOf tok op = false) →
    runOps m ops tok = m tok ∨ runOps m ops tok = none := by
  intro ops
  induction ops with
  | nil => exact fun m tok _ => Or.inl rfl
  | cons op rest ih =>
      intro m tok h
      cases op with
      | put now t zip man ttl =>
          have ht : (t == tok) = false := h _ (List.mem_cons_self _ _)
          have hrec := ih (storePut m now t zip man ttl) tok
            (fun o ho => h o (List.mem_cons_of_mem _ ho))
          rw [show runOps m (.put now t zip man ttl :: rest) =
            runOps (storePut m now t zip man ttl) rest from rfl]
          rcases hrec with h1 | h1
          · rw [h1, storePut_other m now t tok zip man ttl ht]
            exact Or.inl rfl
          · exact Or.inr h1
      | get now t =>
          have hrec := ih ((storeGet m now t).2) tok
            (fun o ho => h o (List.mem_cons_of_mem _ ho))
          rw [show runOps m (.get now t :: rest) =
            runOps ((storeGet m now t).2) rest from rfl]
          rcases hrec with h1 | h1
          · rcases storeGet_snd_cases m now t tok with h2 | h2
            · rw [h1, h2]
              exact Or.inl rfl
            · rw [h1, h2]
              exact Or.inr rfl
          · exact Or.inr h1

lemma runOps_none_of_no_put (ops : List StoreOp) (m : StoreMap) (tok : String)
    (h : ∀ op ∈ ops, isPutOf tok op = false) (hm : m tok = none) :
    runOps m ops tok = none := by
  rcases runOps_no_put ops m tok h with h1 | h1
  · rw [h1, hm]
  · exact h1

lemma runOps_append (m : StoreMap) (ops1 ops2 : List StoreOp) :
    runOps m (ops1 ++ ops2) = runOps (runOps m ops1) ops2 := by
  induction ops1 generalizing m with
  | nil => rfl
  | cons op rest ih => cases op <;> exact ih _

lemma put_mem_of_some (l : List StoreOp) (tok : String) (e : CacheEntry)
    (h : runOps emptyStore l tok = some e) : ∃ op ∈ l, isPutOf tok op = true := by
  by_contra hno
  push_neg at hno
  have hall : ∀ op ∈ l, isPutOf tok op = false := by
    intro op hop
    cases hb : isPutOf tok op with
    | false => rfl
    | true => exact absurd hb (hno op hop)
  rw [runOps_none_of_no_put l emptyStore tok hall rfl] at h
  exact Option.noConfusion h

/-- C9: along any operation trace in which at most one put uses a given
token (as guaranteed by the random newToken generator), the entry observed
under that token never changes between observation points, and once the
entry is gone it never comes back. -/
theorem store_entry_lifecycle (tok : String) (l1 d1 d2 rest : List StoreOp)
    (honce : ((l1 ++ d1 ++ d2 ++ rest).filter (isPutOf tok)).length ≤ 1) :
    (∀ e e', runOps emptyStore l1 tok = some e →
      runOps emptyStore (l1 ++ d1) tok = some e' → e = e') ∧
    (∀ e, runOps emptyStore l1 tok = some e →
      runOps emptyStore (l1 ++ d1) tok = none →
      runOps emptyStore (l1 ++ d1 ++ d2) tok = none) := by
  have hcount : (l1.filter (isPutOf tok)).length + ((d1.filter (isPutOf tok)).length +
      ((d2.filter (isPutOf tok)).length + (rest.filter (isPutOf tok)).length)) ≤ 1 := by
    simpa [List.filter_append, List.length_append] using honce
  constructor
  · intro e e' h1 h2
    obtain ⟨op, hop, hput⟩ := put_mem_of_some l1 tok e h1
    have hl1pos : 1 ≤ (l1.filter (isPutOf tok)).length :=
      List.length_pos.mpr (List.ne_nil_of_mem (List.mem_filter.mpr ⟨hop, hput⟩))
    have hd1 : ∀ o ∈ d1, isPutOf tok o = false := by
      intro o ho
      cases hb : isPutOf tok o with
      | false => rfl
      | true =>
          have : 1 ≤ (d1.filter (isPutOf tok)).length :=
            List.length_pos.mpr (List.ne_nil_of_mem (List.mem_filter.mpr ⟨ho, hb⟩))
          omega
    rw [runOps_append] at h2
    rcases runOps_no_put d1 (runOps emptyStore l1) tok hd1 with hcase | hcase
    · rw [hcase, h1] at h2
      exact Option.some_inj.mp h2
    · rw [hcase] at h2
      exact Option.noConfusion h2
  · intro e h1 h2
    obtain ⟨op, hop, hput⟩ := put_mem_of_some l1 tok e h1
    have hl1pos : 1 ≤ (l1.filter (isPutOf tok)).length :=
      List.length_pos.mpr (List.ne_nil_of_mem (List.mem_filter.mpr ⟨hop, hput⟩))
    have hd2 : ∀ o ∈ d2, isPutOf tok o = false := by
      intro o ho
      cases hb : isPutOf tok o with
      | false => rfl
      | true =>
          have : 1 ≤ (d2.filter (isPutOf tok)).length :=
            List.length_pos.mpr (List.ne_nil_of_mem (List.mem_filter.mpr ⟨ho, hb⟩))
          omega
    rw [runOps_append]
    exact runOps_none_of_no_put d2 (runOps emptyStore (l1 ++ d1)) tok hd2 h2

/-- Witness for C9: a put of a fresh token, an expired get evicting it, and
a later get still missing; plus stability of the entry across a live get. -/
theorem store_entry_lifecycle_witness :
    (runOps emptyStore [.put 0 "t" [1] ⟨"t0", "SHA-256", "r", [], none⟩ 1] "t" =
      some ⟨[1], ⟨"t0", "SHA-256", "r", [], none⟩, 60000⟩) ∧
    (runOps emptyStore ([.put 0 "t" [1] ⟨"t0", "SHA-256", "r", [], none⟩ 1] ++
      [.get 70000 "t"]) "t" = none) ∧
    (runOps emptyStore (([.put 0 "t" [1] ⟨"t0", "SHA-256", "r", [], none⟩ 1] ++
      [.get 70000 "t"]) ++ [.get 80000 "t"]) "t" = none) ∧
    (⟨[1], ⟨"t0", "SHA-256", "r", [], none⟩, 60000⟩ : CacheEntry) =
      ⟨[1], ⟨"t0", "SHA-256", "r", [], none⟩, 60000⟩ :=
  ⟨by decide, by decide,
   (store_entry_lifecycle "t" [.put 0 "t" [1] ⟨"t0", "SHA-256", "r", [], none⟩ 1]
      [.get 70000 "t"] [.get 80000 "t"] [] (by decide)).2
      ⟨[1], ⟨"t0", "SHA-256", "r", [], none⟩, 60000⟩ (by decide) (by decide),
   (store_entry_lifecycle "t" [.put 0 "t" [1] ⟨"t0", "SHA-256", "r", [], none⟩ 1]
      [.get 30000 "t"] [] [] (by decide)).1
      ⟨[1], ⟨"t0", "SHA-256", "r", [], none⟩, 60000⟩
      ⟨[1], ⟨"t0", "SHA-256", "r", [], none⟩, 60000⟩ (by decide) (by decide)⟩

end TrancheReady
